import Mathlib

/-!
# Verification of the face-swap microservice (`face-swap-service/app.py`)

Shallow embedding of the quality-scoring heuristic (`analyze_face_quality`),
the photo selector (`select_best_photo_endpoint`) and the analyze endpoint
(`analyze_photo_endpoint`).

Modelling conventions:
* Python floats are modelled by `ℚ`; the numeric code here uses only exact
  decimal constants and the claims concern branch logic and exact sums.
* `round(x, n)` is modelled by exact decimal round-half-to-even (Python's
  documented rounding mode), `pyRound`.
* The OpenCV computations on pixel data (grayscale conversion, Laplacian
  variance `cv2.Laplacian(gray, CV_64F).var()`, mean brightness
  `np.mean(gray)`) are external library calls; their results are carried as
  attributes of the decoded image (`laplacianVar`, `brightness`), exactly as
  the face model's outputs are carried on the `Face` record.
* The external face model `face_analyzer.get` is an oracle
  `faceDet : Image → List Face`; the HTTP image download `download_image`
  is an oracle `fetch : String → Option Image` (`none` = download or decode
  failure, matching the `None` return).
* Python `list.sort(key=..., reverse=True)` is a stable sort; it is modelled
  by the (stable) insertion sort on the relation "score at least as large".
-/

namespace FaceSwap

/-- A decoded image (`cv2.imdecode` result): its shape `image.shape[:2]`
and the two derived scalar metrics the scorer reads from its pixels. -/
structure Image where
  width : ℕ
  height : ℕ
  /-- `cv2.Laplacian(gray, cv2.CV_64F).var()` — a variance, hence nonnegative
  on any real image. -/
  laplacianVar : ℚ
  /-- `np.mean(gray)` — mean grayscale intensity. -/
  brightness : ℚ
deriving DecidableEq, Repr

/-- One detected face as returned by the face model: integer bounding box
(`face.bbox.astype(int)`), detection score, and the optional pose attribute
(`face.pose if hasattr(face, 'pose') else [0, 0, 0]`). -/
structure Face where
  x_min : ℤ
  y_min : ℤ
  x_max : ℤ
  y_max : ℤ
  det_score : ℚ
  pose : Option (List ℚ)
deriving DecidableEq, Repr

/-- The analysis dict returned by `analyze_face_quality`: `score` and
`face_detected` are always present; `error` is present exactly on the failure
dict, and the diagnostic fields exactly on the success dict. -/
structure QualityReport where
  score : ℚ
  face_detected : Bool
  error : Option String
  confidence : Option ℚ
  yaw_angle : Option ℚ
  front_facing : Option Bool
  resolution : Option String
  face_size_ratio : Option ℚ
  sharpness : Option ℚ
  brightness : Option ℚ
  num_faces : Option ℕ
deriving DecidableEq, Repr

/-- Round a rational to an integer, ties to even (Python's `round`). -/
def roundHalfEven (q : ℚ) : ℤ :=
  if q - ⌊q⌋ < 1/2 then ⌊q⌋
  else if 1/2 < q - ⌊q⌋ then ⌊q⌋ + 1
  else if ⌊q⌋ % 2 = 0 then ⌊q⌋ else ⌊q⌋ + 1

/-- Python's `round(q, ndigits)` on exact decimals. -/
def pyRound (ndigits : ℕ) (q : ℚ) : ℚ :=
  (roundHalfEven (q * (10 : ℚ) ^ ndigits) : ℚ) / (10 : ℚ) ^ ndigits

/-- The failure dict `{'score': 0, 'face_detected': False, 'error': e}`. -/
def failureReport (e : String) : QualityReport :=
  { score := 0
    face_detected := false
    error := some e
    confidence := none
    yaw_angle := none
    front_facing := none
    resolution := none
    face_size_ratio := none
    sharpness := none
    brightness := none
    num_faces := none }

/-- `yaw = abs(pose[0]) if len(pose) > 0 else 0`, where
`pose = face.pose if hasattr(face, 'pose') else [0, 0, 0]`. -/
def yawOf (pose : Option (List ℚ)) : ℚ :=
  let p := pose.getD [0, 0, 0]
  if p.length > 0 then |p.headD 0| else 0

/-- Band 2, frontal pose (25 points):
`if yaw < 15: +25 elif yaw < 30: +15 else: +5`. -/
def poseScore (yaw : ℚ) : ℚ :=
  if yaw < 15 then 25 else if yaw < 30 then 15 else 5

/-- Band 3, image resolution (10 points), `resolution = min(width, height)`:
`if resolution >= 1024: +10 elif resolution >= 800: +7 else: +3`. -/
def resolutionScore (resolution : ℕ) : ℚ :=
  if resolution ≥ 1024 then 10 else if resolution ≥ 800 then 7 else 3

/-- `face_ratio = face_area / image_area` from the integer bbox. -/
def faceRatioOf (image : Image) (face : Face) : ℚ :=
  (((face.x_max - face.x_min) * (face.y_max - face.y_min) : ℤ) : ℚ) /
    ((image.width * image.height : ℕ) : ℚ)

/-- Band 4, face size in image (10 points):
`if face_ratio > 0.15: +10 elif face_ratio > 0.08: +6 else: +2`. -/
def faceRatioScore (face_ratio : ℚ) : ℚ :=
  if face_ratio > 0.15 then 10 else if face_ratio > 0.08 then 6 else 2

/-- `sharpness = min(laplacian_var / 500, 1.0)`. -/
def sharpnessOf (laplacianVar : ℚ) : ℚ :=
  min (laplacianVar / 500) 1

/-- Band 6, lighting quality (10 points):
`if 80 < brightness < 180: +10 elif 60 < brightness < 200: +6 else: +2`. -/
def brightnessScore (brightness : ℚ) : ℚ :=
  if 80 < brightness ∧ brightness < 180 then 10
  else if 60 < brightness ∧ brightness < 200 then 6 else 2

/-- The cumulative `score` variable of `analyze_face_quality` just before
`round(score, 1)`: the sum of the six band contributions. -/
def detectedScore (image : Image) (face : Face) : ℚ :=
  face.det_score * 30
    + poseScore (yawOf face.pose)
    + resolutionScore (min image.width image.height)
    + faceRatioScore (faceRatioOf image face)
    + sharpnessOf image.laplacianVar * 15
    + brightnessScore image.brightness

/-- `analyze_face_quality(image)` with the face model's output `faces`
(the source's `faces = face_analyzer.get(image)`) made explicit. -/
def analyze_face_quality (image : Image) (faces : List Face) : QualityReport :=
  match faces with
  | [] => failureReport "No face detected"
  | face :: _ =>
    let yaw := yawOf face.pose
    { score := pyRound 1 (detectedScore image face)
      face_detected := true
      error := none
      confidence := some (pyRound 3 face.det_score)
      yaw_angle := some (pyRound 1 yaw)
      front_facing := some (decide (yaw < 15))
      resolution := some (toString image.width ++ "x" ++ toString image.height)
      face_size_ratio := some (pyRound 3 (faceRatioOf image face))
      sharpness := some (pyRound 3 (sharpnessOf image.laplacianVar))
      brightness := some (pyRound 1 image.brightness)
      num_faces := some faces.length }

/-- One entry of the selector's `results` list: the analysis dict with the
`url` key added (`analysis['url'] = url`). -/
structure Scored where
  url : String
  report : QualityReport
deriving DecidableEq, Repr

/-- The three 400-errors of `select_best_photo_endpoint`. -/
inductive SelectError where
  /-- `'Missing image_urls in request body'` -/
  | missingField : SelectError
  /-- `'image_urls must be a non-empty array'` -/
  | invalidInput : SelectError
  /-- `'No valid images found'` -/
  | noValidImages : SelectError
deriving DecidableEq, Repr

/-- The `data` payload of a successful `select-best-photo` response. -/
structure SelectionResult where
  primary : String
  fallbacks : List String
  scores : List Scored
deriving DecidableEq, Repr

/-- "a comes no later than b in descending score order":
`b.score ≤ a.score`. -/
def scoreGE (a b : Scored) : Prop :=
  b.report.score ≤ a.report.score

instance : DecidableRel scoreGE := fun a b =>
  inferInstanceAs (Decidable (b.report.score ≤ a.report.score))

instance : IsTotal Scored scoreGE :=
  ⟨fun a b => le_total b.report.score a.report.score⟩

instance : IsTrans Scored scoreGE :=
  ⟨fun _ _ _ hab hbc => le_trans hbc hab⟩

/-- The selector's loop: for each URL, download; on failure skip, otherwise
analyze and tag the result with the URL. -/
def collectReports (fetch : String → Option Image) (faceDet : Image → List Face)
    (urls : List String) : List Scored :=
  urls.filterMap fun url =>
    (fetch url).map fun image => ⟨url, analyze_face_quality image (faceDet image)⟩

/-- `results.sort(key=lambda x: x['score'], reverse=True)` — a stable sort,
descending by score; modelled by the stable insertion sort on `scoreGE`. -/
def sortByScoreDesc (results : List Scored) : List Scored :=
  results.insertionSort scoreGE

/-- `select_best_photo_endpoint` after JSON parsing: `body = none` models a
missing/absent `image_urls` key. Returns the HTTP-400 error kind or the
success payload. -/
def select_best_photo (fetch : String → Option Image) (faceDet : Image → List Face)
    (body : Option (List String)) : Except SelectError SelectionResult :=
  match body with
  | none => .error .missingField
  | some image_urls =>
    if image_urls.isEmpty then .error .invalidInput
    else
      let results := collectReports fetch faceDet image_urls
      match sortByScoreDesc results with
      | [] => .error .noValidImages
      | top :: rest =>
        .ok { primary := top.url
              fallbacks := (rest.take 2).map (·.url)
              scores := top :: rest }

/-- HTTP status of a `select-best-photo` response: every error branch of the
endpoint returns 400, success returns 200. -/
def selectStatus : Except SelectError SelectionResult → ℕ
  | .error _ => 400
  | .ok _ => 200

/-- Body of an `analyze-photo` response: `success (data)` is
`{'success': True, 'data': ...}`, `failure e` is
`{'success': False, 'error': e}`. -/
inductive AnalyzeResult where
  | success : QualityReport → AnalyzeResult
  | failure : String → AnalyzeResult
deriving DecidableEq, Repr

/-- `analyze_photo_endpoint` after JSON parsing (`body = none` models a
missing `image_url` key), returning (HTTP status, response body). -/
def analyze_photo (fetch : String → Option Image) (faceDet : Image → List Face)
    (body : Option String) : ℕ × AnalyzeResult :=
  match body with
  | none => (400, .failure "Missing image_url in request body")
  | some image_url =>
    match fetch image_url with
    | none => (400, .failure "Failed to download or decode image")
    | some image => (200, .success (analyze_face_quality image (faceDet image)))

/-! ## Helper lemmas about rounding -/

theorem le_roundHalfEven {n : ℤ} {q : ℚ} (h : (n : ℚ) ≤ q) : n ≤ roundHalfEven q := by
  have hf : n ≤ ⌊q⌋ := Int.le_floor.mpr h
  unfold roundHalfEven
  split_ifs <;> omega

theorem roundHalfEven_le {n : ℤ} {q : ℚ} (h : q ≤ (n : ℚ)) : roundHalfEven q ≤ n := by
  have hf : ⌊q⌋ ≤ n := by exact_mod_cast (Int.floor_le q).trans h
  have hfloor : (⌊q⌋ : ℚ) ≤ q := Int.floor_le q
  unfold roundHalfEven
  split_ifs with h1 h2 h3
  · exact hf
  · have h4 : (1 : ℚ)/2 ≤ q - ⌊q⌋ := le_of_not_lt h1
    have h5 : (⌊q⌋ : ℚ) < (n : ℚ) := by linarith
    have h6 : ⌊q⌋ < n := by exact_mod_cast h5
    omega
  · exact hf
  · have h4 : (1 : ℚ)/2 ≤ q - ⌊q⌋ := le_of_not_lt h1
    have h5 : (⌊q⌋ : ℚ) < (n : ℚ) := by linarith
    have h6 : ⌊q⌋ < n := by exact_mod_cast h5
    omega

theorem le_pyRound_one {n : ℤ} {q : ℚ} (h : (n : ℚ) ≤ q) : (n : ℚ) ≤ pyRound 1 q := by
  have h10 : ((10 * n : ℤ) : ℚ) ≤ q * (10 : ℚ) ^ 1 := by push_cast; linarith
  have h2 : ((10 * n : ℤ) : ℚ) ≤ (roundHalfEven (q * (10 : ℚ) ^ 1) : ℚ) := by
    exact_mod_cast le_roundHalfEven h10
  unfold pyRound
  rw [le_div_iff₀ (by norm_num)]
  push_cast at h2 ⊢
  linarith

theorem pyRound_one_le {n : ℤ} {q : ℚ} (h : q ≤ (n : ℚ)) : pyRound 1 q ≤ (n : ℚ) := by
  have h10 : q * (10 : ℚ) ^ 1 ≤ ((10 * n : ℤ) : ℚ) := by push_cast; linarith
  have h2 : (roundHalfEven (q * (10 : ℚ) ^ 1) : ℚ) ≤ ((10 * n : ℤ) : ℚ) := by
    exact_mod_cast roundHalfEven_le h10
  unfold pyRound
  rw [div_le_iff₀ (by norm_num)]
  push_cast at h2 ⊢
  linarith

/-! ## Helper lemmas: bounds of the six bands -/

theorem poseScore_bounds (y : ℚ) : 5 ≤ poseScore y ∧ poseScore y ≤ 25 := by
  unfold poseScore; split_ifs <;> norm_num

theorem resolutionScore_bounds (n : ℕ) : 3 ≤ resolutionScore n ∧ resolutionScore n ≤ 10 := by
  unfold resolutionScore; split_ifs <;> norm_num

theorem faceRatioScore_bounds (x : ℚ) : 2 ≤ faceRatioScore x ∧ faceRatioScore x ≤ 10 := by
  unfold faceRatioScore; split_ifs <;> norm_num

theorem brightnessScore_bounds (b : ℚ) : 2 ≤ brightnessScore b ∧ brightnessScore b ≤ 10 := by
  unfold brightnessScore; split_ifs <;> norm_num

theorem sharpnessOf_nonneg {lv : ℚ} (h : 0 ≤ lv) : 0 ≤ sharpnessOf lv := by
  unfold sharpnessOf
  exact le_min (by positivity) (by norm_num)

theorem sharpnessOf_le_one (lv : ℚ) : sharpnessOf lv ≤ 1 :=
  min_le_right _ _

/-- Any detected face contributes at least the sum of the minimal bands:
`0 + 5 + 3 + 2 + 0 + 2 = 12`. -/
theorem detectedScore_ge_twelve (image : Image) (face : Face)
    (hc : 0 ≤ face.det_score) (hlv : 0 ≤ image.laplacianVar) :
    12 ≤ detectedScore image face := by
  unfold detectedScore
  have h1 := poseScore_bounds (yawOf face.pose)
  have h2 := resolutionScore_bounds (min image.width image.height)
  have h3 := faceRatioScore_bounds (faceRatioOf image face)
  have h4 := brightnessScore_bounds image.brightness
  have h5 : (0 : ℚ) ≤ face.det_score * 30 := by positivity
  have h6 : (0 : ℚ) ≤ sharpnessOf image.laplacianVar * 15 := by
    have := sharpnessOf_nonneg hlv
    positivity
  linarith [h1.1, h2.1, h3.1, h4.1]

/-- The six capped contributions sum to at most `30+25+10+10+15+10 = 100`. -/
theorem detectedScore_le_hundred (image : Image) (face : Face)
    (hc : face.det_score ≤ 1) :
    detectedScore image face ≤ 100 := by
  unfold detectedScore
  have h1 := poseScore_bounds (yawOf face.pose)
  have h2 := resolutionScore_bounds (min image.width image.height)
  have h3 := faceRatioScore_bounds (faceRatioOf image face)
  have h4 := brightnessScore_bounds image.brightness
  have h5 : face.det_score * 30 ≤ 30 := by linarith
  have h6 : sharpnessOf image.laplacianVar * 15 ≤ 15 := by
    have := sharpnessOf_le_one image.laplacianVar
    linarith
  linarith [h1.2, h2.2, h3.2, h4.2]

/-! ## Helper lemmas about `analyze_face_quality` -/

theorem analyze_cons_score (image : Image) (face : Face) (rest : List Face) :
    (analyze_face_quality image (face :: rest)).score = pyRound 1 (detectedScore image face) :=
  rfl

theorem analyze_cons_face_detected (image : Image) (face : Face) (rest : List Face) :
    (analyze_face_quality image (face :: rest)).face_detected = true :=
  rfl

/-- The only report with `face_detected = false` is the failure dict, whose
score is 0. -/
theorem score_eq_zero_of_not_face_detected {image : Image} {faces : List Face}
    (h : (analyze_face_quality image faces).face_detected = false) :
    (analyze_face_quality image faces).score = 0 := by
  cases faces with
  | nil => rfl
  | cons f fs => simp [analyze_face_quality] at h

/-- A report on a nonempty face list scores at least 12 (given the inherent
nonnegativity of the detection score and the Laplacian variance). -/
theorem analyze_cons_score_ge_twelve (image : Image) (face : Face) (rest : List Face)
    (hc : 0 ≤ face.det_score) (hlv : 0 ≤ image.laplacianVar) :
    12 ≤ (analyze_face_quality image (face :: rest)).score := by
  rw [analyze_cons_score]
  have h := detectedScore_ge_twelve image face hc hlv
  exact_mod_cast le_pyRound_one (n := 12) (by exact_mod_cast h)

/-! ## Helper lemmas about the selector -/

/-- The sort of the selector is a permutation of the collected results. -/
theorem sortByScoreDesc_perm (l : List Scored) : List.Perm (sortByScoreDesc l) l :=
  List.perm_insertionSort scoreGE l

/-- The sort of the selector is descending in score. -/
theorem sortByScoreDesc_sorted (l : List Scored) : List.Sorted scoreGE (sortByScoreDesc l) :=
  List.sorted_insertionSort scoreGE l

theorem filter_orderedInsert_pos (s : ℚ) (a : Scored) (m : List Scored)
    (ha : a.report.score = s) :
    (List.orderedInsert scoreGE a m).filter (fun r => decide (r.report.score = s))
      = a :: m.filter (fun r => decide (r.report.score = s)) := by
  induction m with
  | nil => simp [ha]
  | cons b l ih =>
    by_cases hr : scoreGE a b
    · rw [List.orderedInsert, if_pos hr]
      simp [List.filter_cons, ha]
    · rw [List.orderedInsert, if_neg hr]
      have hb : ¬ b.report.score = s := by
        intro he
        exact hr (le_of_eq (by rw [he, ha]))
      simp [List.filter_cons, hb, ih]

theorem filter_orderedInsert_neg (s : ℚ) (a : Scored) (m : List Scored)
    (ha : ¬ a.report.score = s) :
    (List.orderedInsert scoreGE a m).filter (fun r => decide (r.report.score = s))
      = m.filter (fun r => decide (r.report.score = s)) := by
  induction m with
  | nil => simp [ha]
  | cons b l ih =>
    by_cases hr : scoreGE a b
    · rw [List.orderedInsert, if_pos hr]
      simp [List.filter_cons, ha]
    · rw [List.orderedInsert, if_neg hr]
      simp [List.filter_cons, ih]

/-- Stability of the selector's sort: for every score value, the reports
carrying that score appear in the sorted list exactly as they appear (and in
the order they appear) in the unsorted list. -/
theorem sortByScoreDesc_filter (s : ℚ) (l : List Scored) :
    (sortByScoreDesc l).filter (fun r => decide (r.report.score = s))
      = l.filter (fun r => decide (r.report.score = s)) := by
  induction l with
  | nil => rfl
  | cons a t ih =>
    show (List.orderedInsert scoreGE a (sortByScoreDesc t)).filter _ = _
    by_cases ha : a.report.score = s
    · rw [filter_orderedInsert_pos s a _ ha, ih, List.filter_cons, if_pos (by simp [ha])]
    · rw [filter_orderedInsert_neg s a _ ha, ih, List.filter_cons, if_neg (by simp [ha])]

/-- Unfolding of the selector's loop on a nonempty URL list. -/
theorem collectReports_cons (fetch : String → Option Image) (faceDet : Image → List Face)
    (u : String) (t : List String) :
    collectReports fetch faceDet (u :: t) =
      match fetch u with
      | none => collectReports fetch faceDet t
      | some image =>
        ⟨u, analyze_face_quality image (faceDet image)⟩ :: collectReports fetch faceDet t := by
  unfold collectReports
  rw [List.filterMap_cons]
  cases fetch u <;> rfl

/-- The URLs of the collected results form a sublist of the input URLs (each
URL yields at most one result, in input order). -/
theorem collectReports_map_url_sublist (fetch : String → Option Image)
    (faceDet : Image → List Face) :
    ∀ urls : List String, ((collectReports fetch faceDet urls).map (·.url)).Sublist urls := by
  intro urls
  induction urls with
  | nil => simp [collectReports]
  | cons u t ih =>
    cases hf : fetch u with
    | none =>
      rw [collectReports_cons, hf]
      exact ih.trans (List.sublist_cons_self u t)
    | some img =>
      rw [collectReports_cons, hf]
      exact ih.cons₂ u

/-- Membership in the collected results: each comes from a URL of the input
whose download succeeded, analyzed on the downloaded image. -/
theorem mem_collectReports {fetch : String → Option Image} {faceDet : Image → List Face}
    {urls : List String} {r : Scored} (h : r ∈ collectReports fetch faceDet urls) :
    ∃ u img, u ∈ urls ∧ fetch u = some img ∧
      r = ⟨u, analyze_face_quality img (faceDet img)⟩ := by
  unfold collectReports at h
  rw [List.mem_filterMap] at h
  obtain ⟨u, hu, hg⟩ := h
  cases hf : fetch u with
  | none => rw [hf] at hg; simp at hg
  | some img =>
    rw [hf] at hg
    simp only [Option.map_some', Option.some.injEq] at hg
    exact ⟨u, img, hu, hf, hg.symm⟩

/-- Unfolding of the selector on a present `image_urls` field. -/
theorem select_best_photo_some (fetch : String → Option Image) (faceDet : Image → List Face)
    (urls : List String) :
    select_best_photo fetch faceDet (some urls) =
      if urls.isEmpty then .error .invalidInput
      else
        match sortByScoreDesc (collectReports fetch faceDet urls) with
        | [] => .error .noValidImages
        | top :: rest =>
          .ok { primary := top.url
                fallbacks := (rest.take 2).map (·.url)
                scores := top :: rest } :=
  rfl

/-- Structure of a successful selector response: the sorted results are
nonempty, `primary` is the URL of their head, `fallbacks` the URLs of the next
two, and `scores` the whole sorted list. -/
theorem select_ok_elim {fetch : String → Option Image} {faceDet : Image → List Face}
    {urls : List String} {sel : SelectionResult}
    (h : select_best_photo fetch faceDet (some urls) = .ok sel) :
    ∃ top rest, sortByScoreDesc (collectReports fetch faceDet urls) = top :: rest ∧
      sel = { primary := top.url
              fallbacks := (rest.take 2).map (·.url)
              scores := top :: rest } := by
  rw [select_best_photo_some] at h
  by_cases he : urls.isEmpty
  · rw [if_pos he] at h
    exact absurd h (by simp)
  · rw [if_neg he] at h
    cases hs : sortByScoreDesc (collectReports fetch faceDet urls) with
    | nil => rw [hs] at h; exact absurd h (by simp)
    | cons top rest =>
      rw [hs] at h
      simp only [Except.ok.injEq] at h
      exact ⟨top, rest, rfl, h.symm⟩

/-- In a successful selector response, the head of the sorted list has the
maximum score among all collected reports. -/
theorem select_top_max {fetch : String → Option Image} {faceDet : Image → List Face}
    {urls : List String} {top : Scored} {rest : List Scored}
    (hs : sortByScoreDesc (collectReports fetch faceDet urls) = top :: rest) :
    ∀ r ∈ collectReports fetch faceDet urls, r.report.score ≤ top.report.score := by
  intro r hr
  have hperm : List.Perm (top :: rest) (collectReports fetch faceDet urls) := by
    rw [← hs]; exact sortByScoreDesc_perm _
  have hmem : r ∈ top :: rest := hperm.symm.subset hr
  have hsorted : List.Sorted scoreGE (top :: rest) := by
    rw [← hs]; exact sortByScoreDesc_sorted _
  rcases List.mem_cons.mp hmem with heq | hmem
  · rw [heq]
  · exact List.rel_of_sorted_cons hsorted r hmem

/-! ## Concrete test fixtures

`img90`/`face90` score exactly 90 (confidence 2/3 → 20, frontal pose → 25,
resolution 1024 → 10, face ratio 1 → 10, sharpness 1 → 15, brightness → 10);
`img40`/`face40` score exactly 40 (confidence 1/3 → 10, yaw 20 → 15,
resolution 600 → 3, tiny face → 2, sharpness 0 → 0, brightness → 10);
`facePerfect` maxes every band on `img90`. -/

def img90 : Image := ⟨1024, 1024, 500, 100⟩

def face90 : Face := ⟨0, 0, 1024, 1024, 2/3, none⟩

def img40 : Image := ⟨600, 600, 0, 100⟩

def face40 : Face := ⟨0, 0, 10, 10, 1/3, some [20, 0, 0]⟩

def facePerfect : Face := ⟨0, 0, 1024, 1024, 1, none⟩

/-- Fetch oracle for the three-URL scenario: the first URL fails to download,
the other two succeed. -/
def cFetch4 : String → Option Image := fun u =>
  if u = "u2" then some img90 else if u = "u3" then some img40 else none

/-- Face model oracle for the three-URL scenario. -/
def cFaceDet4 : Image → List Face := fun img =>
  if img.width = 1024 then [face90] else [face40]

/-- Fetch oracle that always succeeds with `img40`. -/
def cFetchConst : String → Option Image := fun _ => some img40

/-- Face model oracle that always detects `face40`. -/
def cFaceDetConst : Image → List Face := fun _ => [face40]

/-- Face model oracle that never detects a face. -/
def cFaceDetNone : Image → List Face := fun _ => []

/-! ## The claims -/

/-- Claim C2: the frontal-pose contribution is determined by
`yaw = abs(pose.yaw)` (0 if pose is unavailable) with exactly one band
applying: `yaw < 15 → +25`, `15 ≤ yaw < 30 → +15`, `yaw ≥ 30 → +5`; in
particular yaw 14.9 gives +25, 15.0 gives +15, 29.9 gives +15, 30.0
gives +5. -/
theorem claim2_pose_bands :
    (∀ y : ℚ,
      (y < 15 → poseScore y = 25) ∧
      (15 ≤ y → y < 30 → poseScore y = 15) ∧
      (30 ≤ y → poseScore y = 5)) ∧
    yawOf none = 0 ∧
    poseScore (14.9 : ℚ) = 25 ∧ poseScore 15 = 15 ∧
    poseScore (29.9 : ℚ) = 15 ∧ poseScore 30 = 5 := by
  refine ⟨fun y => ⟨fun h => ?_, fun h1 h2 => ?_, fun h => ?_⟩, ?_, ?_, ?_, ?_, ?_⟩
  · unfold poseScore; rw [if_pos h]
  · unfold poseScore; rw [if_neg (by linarith), if_pos h2]
  · unfold poseScore; rw [if_neg (by linarith), if_neg (by linarith)]
  · simp [yawOf]
  · norm_num [poseScore]
  · norm_num [poseScore]
  · norm_num [poseScore]
  · norm_num [poseScore]

/-- Witness for C2 at the boundary inputs yaw = 15 and yaw = 31. -/
theorem claim2_pose_bands_witness : poseScore 15 = 15 ∧ poseScore 31 = 5 :=
  ⟨(claim2_pose_bands.1 15).2.1 le_rfl (by norm_num),
   (claim2_pose_bands.1 31).2.2 (by norm_num)⟩

/-- Claim C3: on zero detected faces the analysis returns exactly the report
with score 0, face_detected false and error "No face detected", and no other
fields — independently of the image, so no further metric is computed. -/
theorem claim3_no_face_report (image : Image) :
    analyze_face_quality image [] =
      { score := 0
        face_detected := false
        error := some "No face detected"
        confidence := none
        yaw_angle := none
        front_facing := none
        resolution := none
        face_size_ratio := none
        sharpness := none
        brightness := none
        num_faces := none } :=
  rfl

/-- Claim C4: selectBest on 3 URLs where the first fails to fetch and the
other two score 90 and 40: the failed URL contributes no report, primary is
the 90-scorer and fallbacks is exactly the one-element list of the
40-scorer. -/
theorem claim4_fetch_failure_scenario :
    cFetch4 "u1" = none ∧
    (select_best_photo cFetch4 cFaceDet4 (some ["u1", "u2", "u3"])).map
        (fun s => (s.primary, s.fallbacks, s.scores.map fun r => (r.url, r.report.score)))
      = .ok ("u2", ["u3"], [("u2", 90), ("u3", 40)]) := by
  refine ⟨rfl, ?_⟩
  norm_num [select_best_photo, collectReports, sortByScoreDesc, scoreGE,
    analyze_face_quality, detectedScore, pyRound, roundHalfEven, poseScore,
    resolutionScore, faceRatioScore, brightnessScore, sharpnessOf, yawOf, faceRatioOf,
    cFetch4, cFaceDet4, img90, img40, face90, face40, List.filterMap,
    List.insertionSort, List.orderedInsert, Except.map]

/-- Claim C5: selectBest on an empty URL list fails with the invalid-input
error (HTTP 400), independently of the fetch and face-model oracles — so
before any fetch can happen. -/
theorem claim5_empty_urls (fetch : String → Option Image) (faceDet : Image → List Face) :
    select_best_photo fetch faceDet (some []) = .error .invalidInput ∧
    selectStatus (select_best_photo fetch faceDet (some [])) = 400 :=
  ⟨rfl, rfl⟩

/-- Claim C9: when every sub-metric is at its maximum (confidence 1, yaw < 15,
min dimension ≥ 1024, face ratio > 0.15, Laplacian variance ≥ 500, brightness
strictly between 80 and 180), the six band maxima sum to exactly 100 and the
returned score is exactly 100. -/
theorem claim9_all_bands_max (image : Image) (face : Face) (rest : List Face)
    (h1 : face.det_score = 1) (h2 : yawOf face.pose < 15)
    (h3 : 1024 ≤ min image.width image.height)
    (h4 : faceRatioOf image face > 0.15)
    (h5 : 500 ≤ image.laplacianVar)
    (h6 : 80 < image.brightness) (h7 : image.brightness < 180) :
    detectedScore image face = 30 + 25 + 10 + 10 + 15 + 10 ∧
    detectedScore image face = 100 ∧
    (analyze_face_quality image (face :: rest)).score = 100 := by
  have hpose : poseScore (yawOf face.pose) = 25 := by unfold poseScore; rw [if_pos h2]
  have hres : resolutionScore (min image.width image.height) = 10 := by
    unfold resolutionScore; rw [if_pos h3]
  have hratio : faceRatioScore (faceRatioOf image face) = 10 := by
    unfold faceRatioScore; rw [if_pos h4]
  have hsharp : sharpnessOf image.laplacianVar = 1 := by
    unfold sharpnessOf
    exact min_eq_right ((le_div_iff₀ (by norm_num)).mpr (by linarith))
  have hbright : brightnessScore image.brightness = 10 := by
    unfold brightnessScore; rw [if_pos ⟨h6, h7⟩]
  have hds : detectedScore image face = 100 := by
    unfold detectedScore
    rw [h1, hpose, hres, hratio, hsharp, hbright]
    norm_num
  refine ⟨by rw [hds]; norm_num, hds, ?_⟩
  rw [analyze_cons_score, hds]
  norm_num [pyRound, roundHalfEven]

/-- Witness for C9: a 1024×1024 image with variance 500, brightness 100 and a
full-frame confidence-1 frontal face scores exactly 100. -/
theorem claim9_witness :
    detectedScore img90 facePerfect = 30 + 25 + 10 + 10 + 15 + 10 ∧
    detectedScore img90 facePerfect = 100 ∧
    (analyze_face_quality img90 [facePerfect]).score = 100 :=
  claim9_all_bands_max img90 facePerfect []
    (by norm_num [facePerfect])
    (by norm_num [facePerfect, yawOf])
    (by norm_num [img90])
    (by norm_num [img90, facePerfect, faceRatioOf])
    (by norm_num [img90])
    (by norm_num [img90])
    (by norm_num [img90])

/-- Unfolding of the analyze endpoint on a present `image_url` field. -/
theorem analyze_photo_some (fetch : String → Option Image) (faceDet : Image → List Face)
    (url : String) :
    analyze_photo fetch faceDet (some url) =
      match fetch url with
      | none => (400, .failure "Failed to download or decode image")
      | some image => (200, .success (analyze_face_quality image (faceDet image))) :=
  rfl

/-- Claim C10: on a fetchable, decodable image with no detected face, the
analyze endpoint answers HTTP 200 with success and the no-face report — the
absence of a face is a successful analysis, not an HTTP error. -/
theorem claim10_no_face_is_http_200 (fetch : String → Option Image)
    (faceDet : Image → List Face) (url : String) (image : Image)
    (hf : fetch url = some image) (hd : faceDet image = []) :
    analyze_photo fetch faceDet (some url) =
      (200, .success
        { score := 0
          face_detected := false
          error := some "No face detected"
          confidence := none
          yaw_angle := none
          front_facing := none
          resolution := none
          face_size_ratio := none
          sharpness := none
          brightness := none
          num_faces := none }) := by
  rw [analyze_photo_some, hf]
  dsimp only
  rw [hd]
  rfl

/-- Witness for C10 with a constant fetch and a face model that finds no
face. -/
theorem claim10_witness :
    analyze_photo cFetchConst cFaceDetNone (some "a") =
      (200, .success
        { score := 0
          face_detected := false
          error := some "No face detected"
          confidence := none
          yaw_angle := none
          front_facing := none
          resolution := none
          face_size_ratio := none
          sharpness := none
          brightness := none
          num_faces := none }) :=
  claim10_no_face_is_http_200 cFetchConst cFaceDetNone "a" img40 rfl rfl

/-- Claim C8: for every image (with its nonnegative Laplacian variance) and
detected faces whose confidences lie in [0,1], the report score lies in
[0,100]; the no-face report scores 0, and the sum of the six capped
contributions never exceeds 100. -/
theorem claim8_score_in_range (image : Image) (faces : List Face)
    (hconf : ∀ f ∈ faces, 0 ≤ f.det_score ∧ f.det_score ≤ 1)
    (hlv : 0 ≤ image.laplacianVar) :
    0 ≤ (analyze_face_quality image faces).score ∧
    (analyze_face_quality image faces).score ≤ 100 ∧
    (analyze_face_quality image []).score = 0 ∧
    ∀ f ∈ faces, detectedScore image f ≤ 100 := by
  refine ⟨?_, ?_, rfl, fun f hf => detectedScore_le_hundred image f (hconf f hf).2⟩
  · cases faces with
    | nil => norm_num [analyze_face_quality, failureReport]
    | cons f fs =>
      have h12 := analyze_cons_score_ge_twelve image f fs
        (hconf f (List.mem_cons_self f fs)).1 hlv
      linarith
  · cases faces with
    | nil => norm_num [analyze_face_quality, failureReport]
    | cons f fs =>
      rw [analyze_cons_score]
      have h := detectedScore_le_hundred image f (hconf f (List.mem_cons_self f fs)).2
      exact_mod_cast pyRound_one_le (n := 100) (by exact_mod_cast h)

/-- Witness for C8 on the perfect-score fixture. -/
theorem claim8_witness :
    0 ≤ (analyze_face_quality img90 [facePerfect]).score ∧
    (analyze_face_quality img90 [facePerfect]).score ≤ 100 ∧
    (analyze_face_quality img90 []).score = 0 ∧
    ∀ f ∈ [facePerfect], detectedScore img90 f ≤ 100 :=
  claim8_score_in_range img90 [facePerfect]
    (by
      intro f hf
      rw [List.mem_singleton] at hf
      subst hf
      norm_num [facePerfect])
    (by norm_num [img90])

/-- Claim C1 as stated: every successful selector call chooses as primary the
URL of a maximum-score report among the face-detected reports; in particular
the primary report always has `face_detected = true`. -/
def claim1Prop (fetch : String → Option Image) (faceDet : Image → List Face)
    (urls : List String) : Prop :=
  ∀ sel, select_best_photo fetch faceDet (some urls) = .ok sel →
    ∃ r ∈ collectReports fetch faceDet urls,
      r.url = sel.primary ∧ r.report.face_detected = true ∧
      ∀ r' ∈ collectReports fetch faceDet urls,
        r'.report.face_detected = true → r'.report.score ≤ r.report.score

/-- Counterexample to C1 as stated: with one URL whose image contains no
face, the call succeeds and the primary report has `face_detected = false` —
a no-face report is chosen as primary. -/
theorem claim1_counterexample :
    ¬ claim1Prop cFetchConst cFaceDetNone ["a"] := by
  intro h
  have hsel : select_best_photo cFetchConst cFaceDetNone (some ["a"]) =
      .ok { primary := "a", fallbacks := [],
            scores := [⟨"a", analyze_face_quality img40 (cFaceDetNone img40)⟩] } := rfl
  obtain ⟨r, hr, hurl, hfd, hmax⟩ := h _ hsel
  have hcol : collectReports cFetchConst cFaceDetNone ["a"] =
      [⟨"a", analyze_face_quality img40 (cFaceDetNone img40)⟩] := rfl
  rw [hcol, List.mem_singleton] at hr
  subst hr
  simp [cFaceDetNone, analyze_face_quality, failureReport] at hfd

/-- Claim C1 (amended): provided at least one collected report has a detected
face — and given the inherent nonnegativity of detection scores and Laplacian
variances — the primary is the URL of a maximum-score report among the
face-detected collected reports, so a no-face report is chosen as primary
only when no collected report has a detected face. -/
theorem claim1_amended (fetch : String → Option Image) (faceDet : Image → List Face)
    (urls : List String) (sel : SelectionResult)
    (hlv : ∀ u img, fetch u = some img → 0 ≤ img.laplacianVar)
    (hconf : ∀ img f, f ∈ faceDet img → 0 ≤ f.det_score)
    (hface : ∃ r ∈ collectReports fetch faceDet urls, r.report.face_detected = true)
    (h : select_best_photo fetch faceDet (some urls) = .ok sel) :
    ∃ r ∈ collectReports fetch faceDet urls,
      r.url = sel.primary ∧ r.report.face_detected = true ∧
      ∀ r' ∈ collectReports fetch faceDet urls,
        r'.report.face_detected = true → r'.report.score ≤ r.report.score := by
  obtain ⟨top, rest, hs, hseleq⟩ := select_ok_elim h
  have hmax := select_top_max hs
  have htopmem : top ∈ collectReports fetch faceDet urls := by
    have hperm := sortByScoreDesc_perm (collectReports fetch faceDet urls)
    rw [hs] at hperm
    exact hperm.subset (List.mem_cons_self top rest)
  obtain ⟨r0, hr0mem, hr0fd⟩ := hface
  have h12 : 12 ≤ r0.report.score := by
    obtain ⟨u, img, hu, hfu, heq⟩ := mem_collectReports hr0mem
    subst heq
    cases hfaces : faceDet img with
    | nil =>
      rw [hfaces] at hr0fd
      simp [analyze_face_quality, failureReport] at hr0fd
    | cons f fs =>
      have hcf : 0 ≤ f.det_score := hconf img f (by rw [hfaces]; exact List.mem_cons_self f fs)
      exact analyze_cons_score_ge_twelve img f fs hcf (hlv u img hfu)
  have htop12 : 12 ≤ top.report.score := le_trans h12 (hmax r0 hr0mem)
  have htopfd : top.report.face_detected = true := by
    by_contra hfalse
    rw [Bool.not_eq_true] at hfalse
    obtain ⟨u, img, hu, hfu, heq⟩ := mem_collectReports htopmem
    rw [heq] at hfalse htop12
    rw [score_eq_zero_of_not_face_detected hfalse] at htop12
    norm_num at htop12
  refine ⟨top, htopmem, ?_, htopfd, fun r₂ hr₂ _ => hmax r₂ hr₂⟩
  rw [hseleq]

/-- Witness for the amended C1: one URL, constant fetch, one detected face. -/
theorem claim1_amended_witness :
    ∃ r ∈ collectReports cFetchConst cFaceDetConst ["a"],
      r.url = "a" ∧
      r.report.face_detected = true ∧
      ∀ r' ∈ collectReports cFetchConst cFaceDetConst ["a"],
        r'.report.face_detected = true → r'.report.score ≤ r.report.score :=
  claim1_amended cFetchConst cFaceDetConst ["a"]
    ⟨"a", [], [⟨"a", analyze_face_quality img40 (cFaceDetConst img40)⟩]⟩
    (by
      intro u img h
      have h2 : some img40 = some img := h
      rw [Option.some_inj] at h2
      subst h2
      norm_num [img40])
    (by
      intro img f hf
      rw [show cFaceDetConst img = [face40] from rfl, List.mem_singleton] at hf
      subst hf
      norm_num [face40])
    ⟨⟨"a", analyze_face_quality img40 (cFaceDetConst img40)⟩,
      by
        rw [show collectReports cFetchConst cFaceDetConst ["a"] =
          [⟨"a", analyze_face_quality img40 (cFaceDetConst img40)⟩] from rfl]
        exact List.mem_singleton.mpr rfl,
      rfl⟩
    rfl

/-- Claim C6 as stated: every successful selector call yields at most two
fallbacks, never containing the primary and never duplicated — including
when the same URL appears more than once in the input. -/
def claim6Prop (fetch : String → Option Image) (faceDet : Image → List Face)
    (urls : List String) : Prop :=
  ∀ sel, select_best_photo fetch faceDet (some urls) = .ok sel →
    sel.fallbacks.length ≤ 2 ∧ sel.primary ∉ sel.fallbacks ∧ sel.fallbacks.Nodup

/-- Counterexample to C6 as stated: on the duplicated input ["a", "a"] both
copies are fetched and scored, the sorted list is [report-a, report-a],
primary is "a" and fallbacks is ["a"] — the primary URL appears among the
fallbacks. -/
theorem claim6_counterexample :
    ¬ claim6Prop cFetchConst cFaceDetConst ["a", "a"] := by
  intro h
  have hsel : select_best_photo cFetchConst cFaceDetConst (some ["a", "a"]) =
      .ok ⟨"a", ["a"],
        [⟨"a", analyze_face_quality img40 (cFaceDetConst img40)⟩,
         ⟨"a", analyze_face_quality img40 (cFaceDetConst img40)⟩]⟩ := by
    rw [select_best_photo_some]
    have hcol : collectReports cFetchConst cFaceDetConst ["a", "a"] =
        [⟨"a", analyze_face_quality img40 (cFaceDetConst img40)⟩,
         ⟨"a", analyze_face_quality img40 (cFaceDetConst img40)⟩] := rfl
    have hsort : sortByScoreDesc (collectReports cFetchConst cFaceDetConst ["a", "a"]) =
        [⟨"a", analyze_face_quality img40 (cFaceDetConst img40)⟩,
         ⟨"a", analyze_face_quality img40 (cFaceDetConst img40)⟩] := by
      rw [hcol]
      show List.orderedInsert scoreGE _ (List.orderedInsert scoreGE _ []) = _
      rw [List.orderedInsert, List.orderedInsert, if_pos (show scoreGE _ _ from le_rfl)]
    rw [if_neg (by simp), hsort]
    rfl
  obtain ⟨-, hnotmem, -⟩ := h _ hsel
  exact hnotmem (List.mem_singleton.mpr rfl)

/-- Claim C6 (amended): every successful selector call yields at most two
fallbacks; and whenever the input URLs are pairwise distinct, the fallbacks
never contain the primary and contain no duplicates. -/
theorem claim6_amended (fetch : String → Option Image) (faceDet : Image → List Face)
    (urls : List String) (sel : SelectionResult)
    (h : select_best_photo fetch faceDet (some urls) = .ok sel) :
    sel.fallbacks.length ≤ 2 ∧
    (urls.Nodup → sel.primary ∉ sel.fallbacks ∧ sel.fallbacks.Nodup) := by
  obtain ⟨top, rest, hs, hseleq⟩ := select_ok_elim h
  subst hseleq
  refine ⟨?_, fun hnd => ?_⟩
  · rw [List.length_map, List.length_take]
    exact min_le_left 2 rest.length
  · have hsub := collectReports_map_url_sublist fetch faceDet urls
    have hnodup_col : ((collectReports fetch faceDet urls).map (·.url)).Nodup :=
      hnd.sublist hsub
    have hperm : List.Perm (top :: rest) (collectReports fetch faceDet urls) := by
      rw [← hs]; exact sortByScoreDesc_perm _
    have hnodup_sorted : ((top :: rest).map (·.url)).Nodup :=
      ((hperm.map (·.url)).nodup_iff).mpr hnodup_col
    rw [List.map_cons, List.nodup_cons] at hnodup_sorted
    have htake : ((rest.take 2).map (·.url)).Sublist (rest.map (·.url)) :=
      (List.take_sublist 2 rest).map _
    refine ⟨?_, ?_⟩
    · intro hmem
      exact hnodup_sorted.1 (htake.subset hmem)
    · exact hnodup_sorted.2.sublist htake

/-- Witness for the amended C6: one distinct URL, successful fetch. -/
theorem claim6_amended_witness :
    (({ primary := "a", fallbacks := [],
        scores := [⟨"a", analyze_face_quality img40 (cFaceDetConst img40)⟩] } :
      SelectionResult).fallbacks.length ≤ 2) ∧
    (["a"].Nodup → ("a" ∉ ([] : List String)) ∧ ([] : List String).Nodup) :=
  claim6_amended cFetchConst cFaceDetConst ["a"]
    ⟨"a", [], [⟨"a", analyze_face_quality img40 (cFaceDetConst img40)⟩]⟩
    rfl

/-- Claim C7: in every successful selector call, `scores` is the collected
reports sorted descending by score with a stable sort (reports of equal score
keep their collection order), `primary` is the URL of the top report and
`fallbacks` are the URLs at ranks 2 and 3 when present. -/
theorem claim7_stable_sort (fetch : String → Option Image) (faceDet : Image → List Face)
    (urls : List String) (sel : SelectionResult)
    (h : select_best_photo fetch faceDet (some urls) = .ok sel) :
    sel.scores = sortByScoreDesc (collectReports fetch faceDet urls) ∧
    List.Perm sel.scores (collectReports fetch faceDet urls) ∧
    sel.scores.Pairwise scoreGE ∧
    (∀ s : ℚ, sel.scores.filter (fun r => decide (r.report.score = s)) =
      (collectReports fetch faceDet urls).filter (fun r => decide (r.report.score = s))) ∧
    sel.scores ≠ [] ∧
    sel.primary = (sel.scores.headD ⟨"", failureReport ""⟩).url ∧
    sel.fallbacks = ((sel.scores.drop 1).take 2).map (·.url) := by
  obtain ⟨top, rest, hs, hseleq⟩ := select_ok_elim h
  subst hseleq
  refine ⟨hs.symm, ?_, ?_, fun s => ?_, by simp, rfl, rfl⟩
  · rw [← hs]; exact sortByScoreDesc_perm _
  · show List.Pairwise scoreGE (top :: rest)
    rw [← hs]; exact sortByScoreDesc_sorted _
  · show (top :: rest).filter _ = _
    rw [← hs]; exact sortByScoreDesc_filter s _

/-- Witness for C7: one URL, successful fetch. -/
theorem claim7_witness :
    ([(⟨"a", analyze_face_quality img40 (cFaceDetConst img40)⟩ : Scored)] =
      sortByScoreDesc (collectReports cFetchConst cFaceDetConst ["a"])) ∧
    List.Perm [(⟨"a", analyze_face_quality img40 (cFaceDetConst img40)⟩ : Scored)]
      (collectReports cFetchConst cFaceDetConst ["a"]) ∧
    List.Pairwise scoreGE
      [(⟨"a", analyze_face_quality img40 (cFaceDetConst img40)⟩ : Scored)] ∧
    ([(⟨"a", analyze_face_quality img40 (cFaceDetConst img40)⟩ : Scored)].filter
        (fun r => decide (r.report.score = 0)) =
      (collectReports cFetchConst cFaceDetConst ["a"]).filter
        (fun r => decide (r.report.score = 0))) := by
  have h := claim7_stable_sort cFetchConst cFaceDetConst ["a"]
    ⟨"a", [], [⟨"a", analyze_face_quality img40 (cFaceDetConst img40)⟩]⟩ rfl
  exact ⟨h.1, h.2.1, h.2.2.1, h.2.2.2.1 0⟩

end FaceSwap
